import Mathlib

/-!
Shallow embedding of `locomotive.py` (PhasecoreX/conductor-py3).

The retry decorator (`retry`, lines 28-58) is embedded as a fuel-indexed
loop `wrapperLoop` over two oracles:
  * `op : Nat → Outcome α ε` gives the outcome of the k-th invocation of the
    wrapped side-effecting function (`function(*args, **kwargs)`);
  * `timeAt : Nat → Int` gives the value `time.time()` observes at the
    break-condition check of the k-th loop iteration (wall-clock time is
    external input, so it is universally quantified in the theorems).
Fuel exhaustion returns `none`, meaning the loop is still running after
that many iterations; `some r` means the wrapper returned (or raised) with
outcome `r.outcome`, having invoked the function `r.attempts` times and
slept a total of `r.slept` (the accumulated `time.sleep(delay)` calls).
-/

/-- Outcome of one invocation of the wrapped operation: a normal return
value, or a raised exception of kind `ε`. -/
inductive Outcome (α ε : Type) where
  | ok (a : α)
  | err (e : ε)
deriving DecidableEq

/-- What the retry wrapper produced: the returned/raised outcome, the total
number of invocations of the wrapped function, and the total time slept. -/
structure RunResult (α ε : Type) where
  outcome : Outcome α ε
  attempts : Nat
  slept : Int
deriving DecidableEq

/-- Configuration accepted by the `retry` decorator factory. -/
structure RetryConfig where
  timeout : Int
  delay : Int
  tries : Int
deriving DecidableEq

/-- `retry(exceptions, timeout=10, delay=0, tries=10)`, lines 28-33: the
construction-time validation. `delay < 0` raises
`ValueError("delay must be 0 or greater")` before any function is wrapped;
otherwise the decorator is produced. `math.ceil(tries)` is the identity on
the integer `tries`. -/
def retry (timeout delay tries : Int) : Except String RetryConfig :=
  if delay < 0 then .error "delay must be 0 or greater"
  else .ok { timeout := timeout, delay := delay, tries := tries }

/-- The `while True` loop of `wrapper` (lines 44-54) plus the final
unconditional call on line 54. `k` is the index of the next invocation,
`minTries` is the current value of the Python local `min_tries`, `slept`
accumulates the `time.sleep(delay)` pauses. One fuel unit is one loop
iteration. -/
def wrapperLoop {α ε : Type} (retryable : ε → Bool) (indefinite : Bool)
    (delay endTime : Int) (timeAt : Nat → Int) (op : Nat → Outcome α ε) :
    Nat → Int → Int → Nat → Option (RunResult α ε)
  | _, _, _, 0 => none
  | k, minTries, slept, fuel + 1 =>
    match op k with
    | .ok a => some ⟨.ok a, k + 1, slept⟩
    | .err e =>
      if retryable e then
        -- `if delay > 0: time.sleep(delay)` (lines 48-49)
        let slept2 := if delay > 0 then slept + delay else slept
        -- `if not indefinite and time.time() > end_time and min_tries < 1: break`
        if indefinite = false ∧ endTime < timeAt k ∧ minTries < 1 then
          -- line 54: `return function(*args, **kwargs)`, one final attempt
          -- whose outcome (value or raised error) is what the caller sees
          some ⟨op (k + 1), k + 2, slept2⟩
        else
          -- `if min_tries > 0: min_tries -= 1` (lines 52-53), then loop
          wrapperLoop retryable indefinite delay endTime timeAt op
            (k + 1) (if minTries > 0 then minTries - 1 else minTries) slept2 fuel
      else
        -- exception not in `exceptions`: not caught, propagates at once
        some ⟨.err e, k + 1, slept⟩

/-- The body of `wrapper` (lines 38-54): set up `min_tries`, `indefinite`
and `end_time` from the decorator configuration and the start time, then
run the loop. -/
def runWrapper {α ε : Type} (retryable : ε → Bool)
    (timeout delay tries startTime : Int) (timeAt : Nat → Int)
    (op : Nat → Outcome α ε) (fuel : Nat) : Option (RunResult α ε) :=
  let indefinite : Bool := decide (timeout < 0)
  let min_tries : Int := tries - 2
  let end_time : Int := if indefinite then startTime else startTime + timeout
  wrapperLoop retryable indefinite delay end_time timeAt op 0 min_tries 0 fuel

/-- Whenever the loop returns, its outcome is exactly what the wrapped
function produced on its last invocation: a success is returned on the
spot (line 46), a non-retryable error propagates from the attempt that
raised it (line 47 not matching), and after a break the final call on
line 54 is returned/raised as-is. -/
theorem wrapperLoop_outcome {α ε : Type} (retryable : ε → Bool) (indefinite : Bool)
    (delay endTime : Int) (timeAt : Nat → Int) (op : Nat → Outcome α ε) :
    ∀ (fuel k : Nat) (m s : Int) (r : RunResult α ε),
      wrapperLoop retryable indefinite delay endTime timeAt op k m s fuel = some r →
      1 ≤ r.attempts ∧ r.outcome = op (r.attempts - 1) := by
  intro fuel
  induction fuel with
  | zero => intro k m s r h; simp [wrapperLoop] at h
  | succ fuel ih =>
    intro k m s r h
    rw [wrapperLoop] at h
    cases hop : op k with
    | ok a =>
      rw [hop] at h
      dsimp only at h
      injection h with h
      subst h
      simp [hop]
    | err e =>
      rw [hop] at h
      dsimp only at h
      by_cases hr : retryable e
      · rw [if_pos hr] at h
        by_cases hb : indefinite = false ∧ endTime < timeAt k ∧ m < 1
        · rw [if_pos hb] at h
          injection h with h
          subst h
          exact ⟨Nat.le_add_left 1 (k + 1), rfl⟩
        · rw [if_neg hb] at h
          exact ih _ _ _ _ h
      · rw [if_neg (by simp [hr])] at h
        injection h with h
        subst h
        simp [hop]

/-- When `indefinite` is false and every invocation fails with a retryable
error, a loop that returns has made at least `k + 2 + m` invocations in
total, counting from state `(k, m)`: the break that allows the loop to end
requires `min_tries < 1`, and `min_tries` drops by at most one per
iteration. -/
theorem wrapperLoop_attempts_ge {α ε : Type} (retryable : ε → Bool)
    (delay endTime : Int) (timeAt : Nat → Int) (op : Nat → Outcome α ε)
    (hfail : ∀ i, ∃ e, op i = .err e ∧ retryable e = true) :
    ∀ (fuel k : Nat) (m s : Int) (r : RunResult α ε),
      wrapperLoop retryable false delay endTime timeAt op k m s fuel = some r →
      (k : Int) + 2 + m ≤ r.attempts := by
  intro fuel
  induction fuel with
  | zero => intro k m s r h; simp [wrapperLoop] at h
  | succ fuel ih =>
    intro k m s r h
    rw [wrapperLoop] at h
    obtain ⟨e, hop, hr⟩ := hfail k
    rw [hop] at h
    dsimp only at h
    rw [if_pos hr] at h
    by_cases hb : false = false ∧ endTime < timeAt k ∧ m < 1
    · rw [if_pos hb] at h
      injection h with h
      subst h
      show (k : Int) + 2 + m ≤ ((k + 2 : Nat) : Int)
      push_cast
      omega
    · rw [if_neg hb] at h
      have := ih _ _ _ _ h
      by_cases hm : m > 0
      · rw [if_pos hm] at this
        push_cast at this ⊢
        omega
      · rw [if_neg hm] at this
        push_cast at this ⊢
        omega

/-- With `indefinite` true (i.e. `timeout < 0`) the break condition on
line 50 is never satisfied, so on an operation that always fails with a
retryable error the loop never returns, whatever the fuel. -/
theorem wrapperLoop_indefinite_none {α ε : Type} (retryable : ε → Bool)
    (delay endTime : Int) (timeAt : Nat → Int) (op : Nat → Outcome α ε)
    (hfail : ∀ i, ∃ e, op i = .err e ∧ retryable e = true) :
    ∀ (fuel k : Nat) (m s : Int),
      wrapperLoop retryable true delay endTime timeAt op k m s fuel = none := by
  intro fuel
  induction fuel with
  | zero => intro k m s; rfl
  | succ fuel ih =>
    intro k m s
    rw [wrapperLoop]
    obtain ⟨e, hop, hr⟩ := hfail k
    rw [hop]
    dsimp only
    rw [if_pos hr, if_neg (by simp)]
    exact ih _ _ _

/-- With `indefinite` true, if every failure of the operation is retryable,
then the only way the loop can return is by the success on line 46: a
returned result is always a success. -/
theorem wrapperLoop_indefinite_ok {α ε : Type} (retryable : ε → Bool)
    (delay endTime : Int) (timeAt : Nat → Int) (op : Nat → Outcome α ε)
    (hret : ∀ i e, op i = .err e → retryable e = true) :
    ∀ (fuel k : Nat) (m s : Int) (r : RunResult α ε),
      wrapperLoop retryable true delay endTime timeAt op k m s fuel = some r →
      ∃ a, r.outcome = .ok a := by
  intro fuel
  induction fuel with
  | zero => intro k m s r h; simp [wrapperLoop] at h
  | succ fuel ih =>
    intro k m s r h
    rw [wrapperLoop] at h
    cases hop : op k with
    | ok a =>
      rw [hop] at h
      dsimp only at h
      injection h with h
      subst h
      exact ⟨a, rfl⟩
    | err e =>
      rw [hop] at h
      dsimp only at h
      rw [if_pos (hret k e hop), if_neg (by simp)] at h
      exact ih _ _ _ _ h

instance exceptDecidableEq {ε α : Type} [DecidableEq ε] [DecidableEq α] :
    DecidableEq (Except ε α) := fun x y =>
  match x, y with
  | .ok a, .ok b =>
    if h : a = b then .isTrue (congrArg Except.ok h)
    else .isFalse (fun hc => h (Except.ok.inj hc))
  | .error a, .error b =>
    if h : a = b then .isTrue (congrArg Except.error h)
    else .isFalse (fun hc => h (Except.error.inj hc))
  | .ok _, .error _ => .isFalse (fun hc => Except.noConfusion hc)
  | .error _, .ok _ => .isFalse (fun hc => Except.noConfusion hc)

theorem exceptBind_ok {ε α β : Type} (a : α) (f : α → Except ε β) :
    (Except.ok a >>= f : Except ε β) = f a := rfl

/-- Python `str.lower()`: lowercase each character of the string. -/
def pyLower (s : String) : String := String.mk (s.data.map Char.toLower)

/-- Error kinds raised by the session code itself (lines 68, 134, 139-140,
the tuple indexing on line 64, and the `assert` statements of the validate
family). -/
inductive LocError where
  | noSuchElement (msg : String)
  | notImplemented (msg : String)
  | typeError (msg : String)
  | indexError (msg : String)
  | assertionError (msg : String)
deriving DecidableEq

/-- A Python value passed as a selector: a string, a tuple of strings of
any arity, or anything else. -/
inductive PySelector where
  | str (s : String)
  | tuple (elems : List String)
  | other
deriving DecidableEq

/-- `clean_selector` (lines 61-68): `isinstance(selector, tuple)` — any
arity — is checked first, and the result is
`(selector[0].lower(), selector[1])`: elements beyond the second are
ignored, and a tuple with fewer than two elements raises
`IndexError("tuple index out of range")` from the subscript on line 64.
A string becomes `("css", selector)`; anything else raises `TypeError`. -/
def clean_selector : PySelector → Except LocError (String × String)
  | .tuple (a :: b :: _) => .ok (pyLower a, b)
  | .tuple _ => .error (.indexError "tuple index out of range")
  | .str s => .ok ("css", s)
  | .other => .error (.typeError "selector must be a string or tuple (select_by, select_value)")

/-- The driver query primitives used by `__get_element` (lines 121-132),
modelling the external driver: each returns the ordered list of matching
element handles. -/
structure Driver (Elem : Type) where
  find_elements_by_css_selector : String → List Elem
  find_elements_by_id : String → List Elem
  find_elements_by_name : String → List Elem
  find_elements_by_class_name : String → List Elem
  find_elements_by_link_text : String → List Elem
  find_elements_by_xpath : String → List Elem

/-- Python `str.strip("#")`: remove all leading and all trailing `#`
characters (line 124). -/
def stripHash (s : String) : String :=
  String.mk (((s.data.dropWhile (fun c => c == '#')).reverse.dropWhile
    (fun c => c == '#')).reverse)

/-- The find-elements dispatch of `__get_element` (lines 120-134): select
the driver query primitive from `select_by`, with the `#`-stripping for
`id`, raising `NotImplementedError` on an unrecognized kind. -/
def findElements {Elem : Type} (d : Driver Elem) (select_by select_value : String) :
    Except LocError (List Elem) :=
  if select_by = "css" then .ok (d.find_elements_by_css_selector select_value)
  else if select_by = "id" then .ok (d.find_elements_by_id (stripHash select_value))
  else if select_by = "name" then .ok (d.find_elements_by_name select_value)
  else if select_by = "class" then .ok (d.find_elements_by_class_name select_value)
  else if select_by = "link" then .ok (d.find_elements_by_link_text select_value)
  else if select_by = "xpath" then .ok (d.find_elements_by_xpath select_value)
  else .error (.notImplemented ("select_by " ++ select_by ++ " not supported! (Yet?)"))

/-- `__get_element(selector, get_multiple=True)` (lines 117-137): normalize
the selector, dispatch to the driver, and return the whole (possibly
empty) match list. -/
def get_element_multiple {Elem : Type} (d : Driver Elem) (selector : PySelector) :
    Except LocError (List Elem) := do
  let (select_by, select_value) ← clean_selector selector
  findElements d select_by select_value

/-- `__get_element(selector, get_multiple=False)` (lines 117-142): as
above, but an empty match list raises `NoSuchElementException` (lines
138-140) and otherwise `elements[0]` is returned (line 142). -/
def get_element_single {Elem : Type} (d : Driver Elem) (selector : PySelector) :
    Except LocError Elem := do
  let (select_by, select_value) ← clean_selector selector
  let elements ← findElements d select_by select_value
  match elements with
  | [] => throw (.noSuchElement
      ("No element found matching " ++ select_by ++ "(" ++ select_value ++ ")"))
  | e :: _ => pure e

/-- `count_present` (lines 416-418): the length of the multiple-mode match
list. -/
def count_present {Elem : Type} (d : Driver Elem) (selector : PySelector) :
    Except LocError Nat :=
  (get_element_multiple d selector).map List.length

/-- `is_present` (lines 412-414): `count_present(selector) > 0`. -/
def is_present {Elem : Type} (d : Driver Elem) (selector : PySelector) :
    Except LocError Bool :=
  (count_present d selector).map (fun n => decide (0 < n))

/-- State of one checkbox element together with a count of the driver
clicks performed on it. Models the external driver's checkbox behaviour:
a click toggles the checked state. -/
structure CheckboxPage where
  checked : Bool
  clicks : Nat
deriving DecidableEq

/-- The driver click on the checkbox (`self.click(selector)` on line 191,
reaching `element.click()` on line 182): toggles the checked state. -/
def clickCheckbox (p : CheckboxPage) : CheckboxPage :=
  ⟨!p.checked, p.clicks + 1⟩

/-- `is_checked` (lines 200-202): the element's selected state. -/
def is_checked (p : CheckboxPage) : Bool := p.checked

/-- `check` (lines 185-192):
`if self.is_checked(selector) is not mark: self.click(selector)`. -/
def check (mark : Bool) (p : CheckboxPage) : CheckboxPage :=
  if is_checked p ≠ mark then clickCheckbox p else p

/-- The value a session method hands back to its caller: `self` (the
session, enabling fluent chaining) or Python `None` (the body ended
without a `return` statement). -/
inductive PyReturn where
  | self
  | none
deriving DecidableEq

/-- `check` with its returned value: line 192 is `return self`. -/
def check_with_return (mark : Bool) (p : CheckboxPage) : CheckboxPage × PyReturn :=
  (check mark p, .self)

/-- `uncheck` (lines 194-198): calls `self.check(selector, False)` and ends
without a `return` statement, so Python returns `None`. -/
def uncheck (p : CheckboxPage) : CheckboxPage × PyReturn :=
  ((check_with_return false p).1, .none)

/-- The fields of a resolved element that `__text` (lines 160-175) reads:
tag name, `value` attribute, rendered text, and — for a select element —
the text of the first currently-selected option (via `__select_text`). -/
structure WebElement where
  tag_name : String
  value_attribute : String
  text : String
  selected_option_text : String
deriving DecidableEq

/-- What a call to `__text` does, given the resolved element: a read
returning a string, or a write — the selection-control protocol
(`select_by_visible_text`) or clear-and-type (`clear(); send_keys(v)`) —
returning `self`. -/
inductive TextEffect where
  | read (s : String)
  | wroteSelect (v : String)
  | wroteKeys (v : String)
deriving DecidableEq

/-- Whether the effect was a write. -/
def TextEffect.isWrite : TextEffect → Bool
  | .read _ => false
  | .wroteSelect _ => true
  | .wroteKeys _ => true

/-- The read path of `__text` (lines 163-168): the `value` attribute for
`input`/`textarea`, the first selected option text for `select`, else
`element.text`. -/
def text_read (el : WebElement) : String :=
  if pyLower el.tag_name ∈ (["input", "textarea"] : List String) then el.value_attribute
  else if pyLower el.tag_name = "select" then el.selected_option_text
  else el.text

/-- `__text` (lines 160-175): `if set_value is None` selects the read path
(lines 163-168); otherwise a select element is written through
`__select_text(selector, set_value)` (lines 170-171) and anything else is
cleared and typed into (lines 173-175), returning `self`. -/
def text (el : WebElement) (set_value : Option String) : TextEffect :=
  match set_value with
  | none => .read (text_read el)
  | some v =>
    if pyLower el.tag_name = "select" then .wroteSelect v
    else .wroteKeys v

/-- `validate_text` (lines 364-370): read the element text via `__text`,
`assert actual_text == text` (raising `AssertionError` when it differs),
then end without a `return` statement — returning `None`. -/
def validate_text (el : WebElement) (expected : String) : Except LocError PyReturn :=
  let actual := text_read el
  if actual = expected then .ok PyReturn.none
  else .error (.assertionError
    ("text does not equal " ++ expected ++ " (actual: " ++ actual ++ ")"))

/-- `validate_checked` (lines 394-400): assert `is_checked`, then
`return self` (line 400). -/
def validate_checked (p : CheckboxPage) : Except LocError PyReturn :=
  if is_checked p then .ok PyReturn.self
  else .error (.assertionError "is not checked, when it should be")

/-- C1: with `timeout ≥ 0` and `tries = m`, wrapping an operation that
fails with a retryable error on every invocation yields a guarded
invocation that, whenever it returns, has invoked the operation at least
`m` times in total — for every start time and every behaviour of the
wall clock — and whose result is the outcome of the single final
unconditional attempt (line 54). -/
theorem retry_min_tries_guarantee {α ε : Type} (retryable : ε → Bool)
    (timeout delay tries startTime : Int) (timeAt : Nat → Int)
    (op : Nat → Outcome α ε) (fuel : Nat) (r : RunResult α ε)
    (htimeout : 0 ≤ timeout)
    (hfail : ∀ i, ∃ e, op i = .err e ∧ retryable e = true)
    (hrun : runWrapper retryable timeout delay tries startTime timeAt op fuel = some r) :
    tries ≤ (r.attempts : Int) ∧ r.outcome = op (r.attempts - 1) := by
  have hind : decide (timeout < 0) = false := decide_eq_false (not_lt.mpr htimeout)
  simp only [runWrapper, hind, Bool.false_eq_true, if_false] at hrun
  have h1 := wrapperLoop_attempts_ge retryable delay (startTime + timeout) timeAt op hfail
    fuel 0 (tries - 2) 0 r hrun
  have h2 := wrapperLoop_outcome retryable false delay (startTime + timeout) timeAt op
    fuel 0 (tries - 2) 0 r hrun
  exact ⟨by push_cast at h1; omega, h2.2⟩

theorem retry_min_tries_guarantee_witness :
    (4 : Int) ≤ (((⟨Outcome.err 3, 4, 0⟩ : RunResult Unit Nat).attempts : Nat) : Int) ∧
    (⟨Outcome.err 3, 4, 0⟩ : RunResult Unit Nat).outcome =
      (fun i => Outcome.err (α := Unit) i)
        ((⟨Outcome.err 3, 4, 0⟩ : RunResult Unit Nat).attempts - 1) :=
  retry_min_tries_guarantee (fun _ => true) 0 0 4 0 (fun _ => 1)
    (fun i => Outcome.err (α := Unit) i) 10 ⟨.err 3, 4, 0⟩
    (by decide) (fun i => ⟨i, rfl, rfl⟩) (by decide)

/-- C2: for every retry schedule, if the operation fails on every
invocation, a returning guarded invocation raises exactly the error the
operation itself raised on its last invocation — the same error value of
the caller's own error type, never wrapped and never a synthetic
timed-out error. -/
theorem retry_last_error_surfaces {α ε : Type} (retryable : ε → Bool)
    (timeout delay tries startTime : Int) (timeAt : Nat → Int)
    (op : Nat → Outcome α ε) (fuel : Nat) (r : RunResult α ε) (errOf : Nat → ε)
    (hfail : ∀ i, op i = .err (errOf i))
    (hrun : runWrapper retryable timeout delay tries startTime timeAt op fuel = some r) :
    1 ≤ r.attempts ∧ r.outcome = .err (errOf (r.attempts - 1)) := by
  simp only [runWrapper] at hrun
  have h := wrapperLoop_outcome retryable (decide (timeout < 0)) delay
    (if decide (timeout < 0) then startTime else startTime + timeout) timeAt op
    fuel 0 (tries - 2) 0 r hrun
  exact ⟨h.1, by rw [h.2, hfail]⟩

theorem retry_last_error_surfaces_witness :
    1 ≤ (⟨Outcome.err 12, 3, 2⟩ : RunResult Unit Nat).attempts ∧
    (⟨Outcome.err 12, 3, 2⟩ : RunResult Unit Nat).outcome =
      Outcome.err ((fun i => i + 10) ((⟨Outcome.err 12, 3, 2⟩ : RunResult Unit Nat).attempts - 1)) :=
  retry_last_error_surfaces (fun _ => true) 2 1 3 0 (fun _ => 5)
    (fun i => Outcome.err (α := Unit) (i + 10)) 10 ⟨.err 12, 3, 2⟩ (fun i => i + 10)
    (fun _ => rfl) (by decide)

/-- C3: an operation whose first failure is not a retryable error is
invoked exactly once, the error propagates unchanged, and no sleep is
performed — for every timeout, delay, try count, start time and clock. -/
theorem retry_non_retryable_single_attempt {α ε : Type} (retryable : ε → Bool)
    (timeout delay tries startTime : Int) (timeAt : Nat → Int)
    (op : Nat → Outcome α ε) (fuel : Nat) (e : ε)
    (hop : op 0 = .err e) (hr : retryable e = false) :
    runWrapper retryable timeout delay tries startTime timeAt op (fuel + 1) =
      some ⟨.err e, 1, 0⟩ := by
  simp only [runWrapper]
  rw [wrapperLoop, hop]
  dsimp only
  rw [if_neg (by simp [hr])]

theorem retry_non_retryable_single_attempt_witness :
    runWrapper (fun _ : Nat => false) 10 5 10 0 (fun _ => 0)
      (fun _ => Outcome.err (α := Unit) 7) 4 = some ⟨.err 7, 1, 0⟩ :=
  retry_non_retryable_single_attempt (fun _ => false) 10 5 10 0 (fun _ => 0)
    (fun _ => Outcome.err (α := Unit) 7) 3 7 rfl rfl

/-- C4: constructing the decorator with `delay < 0` fails with the
`ValueError` at construction time, for every timeout and try count;
constructing with `timeout < 0` (and valid delay) succeeds, and the
guarded invocation it produces never returns while a retryable error
keeps occurring — it can only return by an attempt succeeding. -/
theorem retry_delay_and_indefinite :
    (∀ timeout delay tries : Int, delay < 0 →
      retry timeout delay tries = .error "delay must be 0 or greater")
    ∧ (∀ timeout delay tries : Int, 0 ≤ delay → timeout < 0 →
      retry timeout delay tries = .ok ⟨timeout, delay, tries⟩)
    ∧ (∀ (α ε : Type) (retryable : ε → Bool)
        (timeout delay tries startTime : Int) (timeAt : Nat → Int)
        (op : Nat → Outcome α ε),
        timeout < 0 →
        ((∀ i, ∃ e, op i = .err e ∧ retryable e = true) →
          ∀ fuel,
            runWrapper retryable timeout delay tries startTime timeAt op fuel = none)
        ∧ ((∀ i e, op i = .err e → retryable e = true) →
          ∀ (fuel : Nat) (r : RunResult α ε),
            runWrapper retryable timeout delay tries startTime timeAt op fuel = some r →
            ∃ a, r.outcome = .ok a)) := by
  refine ⟨?_, ?_, ?_⟩
  · intro timeout delay tries h
    simp [retry, h]
  · intro timeout delay tries h _
    simp [retry, not_lt.mpr h]
  · intro α ε retryable timeout delay tries startTime timeAt op ht
    have hind : decide (timeout < 0) = true := decide_eq_true ht
    constructor
    · intro hfail fuel
      simp only [runWrapper, hind]
      exact wrapperLoop_indefinite_none retryable delay startTime timeAt op hfail fuel 0 _ 0
    · intro hret fuel r hrun
      simp only [runWrapper, hind] at hrun
      exact wrapperLoop_indefinite_ok retryable delay startTime timeAt op hret
        fuel 0 _ 0 r hrun

theorem retry_delay_and_indefinite_witness :
    retry 10 (-1) 10 = .error "delay must be 0 or greater"
    ∧ retry (-1) 0 10 = .ok ⟨-1, 0, 10⟩
    ∧ runWrapper (fun _ : Nat => true) (-1) 0 10 0 (fun _ => 1000)
        (fun i => Outcome.err (α := Unit) i) 50 = none
    ∧ ∃ a, (⟨Outcome.ok (), 3, 0⟩ : RunResult Unit Nat).outcome = Outcome.ok a :=
  ⟨retry_delay_and_indefinite.1 10 (-1) 10 (by decide),
   retry_delay_and_indefinite.2.1 (-1) 0 10 (by decide) (by decide),
   (retry_delay_and_indefinite.2.2 Unit Nat (fun _ => true) (-1) 0 10 0 (fun _ => 1000)
      (fun i => Outcome.err i) (by decide)).1 (fun i => ⟨i, rfl, rfl⟩) 50,
   (retry_delay_and_indefinite.2.2 Unit Nat (fun _ => true) (-1) 0 10 0 (fun _ => 1000)
      (fun i => if i < 2 then Outcome.err i else Outcome.ok ()) (by decide)).2
     (fun _ _ _ => rfl) 10 ⟨Outcome.ok (), 3, 0⟩ (by decide)⟩

/-- C5 fails as stated: the tuple `("ID", "main", "extra")` is neither a
string nor a two-element pair, yet `clean_selector` returns normally —
`("id", "main")`, the extra element silently ignored — and the one-element
tuple `("x",)` raises `IndexError`, not the invalid-selector-shape
`TypeError`. -/
theorem clean_selector_spec_counterexample :
    clean_selector (.tuple ["ID", "main", "extra"]) = .ok ("id", "main")
    ∧ clean_selector (.tuple ["x"]) = .error (.indexError "tuple index out of range") := by
  exact ⟨by decide, rfl⟩

/-- C5 amended: every bare string `s` normalizes to `("css", s)`; every
tuple with at least two elements normalizes to
`(lowercase(first), second)` — in particular `("ID", "main")` to
`("id", "main")` — with any further elements ignored; a tuple with fewer
than two elements fails with `IndexError` (not the invalid-selector-shape
error); and every input that is neither a string nor a tuple fails with
the invalid-selector-shape `TypeError` (no normal return). -/
theorem clean_selector_spec_amended :
    (∀ s, clean_selector (.str s) = .ok ("css", s))
    ∧ (∀ a b rest, clean_selector (.tuple (a :: b :: rest)) = .ok (pyLower a, b))
    ∧ clean_selector (.tuple ["ID", "main"]) = .ok ("id", "main")
    ∧ clean_selector (.tuple []) = .error (.indexError "tuple index out of range")
    ∧ (∀ a, clean_selector (.tuple [a]) = .error (.indexError "tuple index out of range"))
    ∧ clean_selector .other =
        .error (.typeError "selector must be a string or tuple (select_by, select_value)") := by
  exact ⟨fun s => rfl, fun a b rest => rfl, by decide, rfl, fun a => rfl, rfl⟩

/-- C6: for a recognized selector resolving to the driver match list
`es`, multiple-mode resolution returns the full ordered list `es` — an
empty list being a normal non-error result, on which `count_present`
returns `0` and `is_present` returns `false` without raising — while
single-mode resolution raises `NoSuchElementException` on an empty list
and returns exactly the first match, ignoring the rest, otherwise. -/
theorem element_resolution_spec {Elem : Type} (d : Driver Elem)
    (sel : PySelector) (k v : String) (es : List Elem)
    (hsel : clean_selector sel = .ok (k, v))
    (hfind : findElements d k v = .ok es) :
    get_element_multiple d sel = .ok es
    ∧ (es = [] → count_present d sel = .ok 0
        ∧ is_present d sel = .ok false
        ∧ ∃ msg, get_element_single d sel = .error (.noSuchElement msg))
    ∧ (∀ e rest, es = e :: rest → get_element_single d sel = .ok e) := by
  have hm : get_element_multiple d sel = .ok es := by
    unfold get_element_multiple
    rw [hsel, exceptBind_ok]
    exact hfind
  refine ⟨hm, ?_, ?_⟩
  · rintro rfl
    refine ⟨?_, ?_, ?_⟩
    · unfold count_present
      rw [hm]
      rfl
    · unfold is_present count_present
      rw [hm]
      rfl
    · refine ⟨"No element found matching " ++ k ++ "(" ++ v ++ ")", ?_⟩
      unfold get_element_single
      rw [hsel, exceptBind_ok]
      dsimp only
      rw [hfind, exceptBind_ok]
      rfl
  · rintro e rest rfl
    unfold get_element_single
    rw [hsel, exceptBind_ok]
    dsimp only
    rw [hfind, exceptBind_ok]
    rfl

/-- A concrete driver over `Nat` handles: the css query for `"x"` matches
two elements, everything else matches none. -/
def demoDriver : Driver Nat :=
  ⟨fun w => if w = "x" then [5, 6] else [], fun _ => [], fun _ => [],
   fun _ => [], fun _ => [], fun _ => []⟩

theorem element_resolution_spec_witness :
    get_element_multiple demoDriver (.str "x") = .ok [5, 6]
    ∧ get_element_single demoDriver (.str "x") = .ok 5
    ∧ count_present demoDriver (.str "y") = .ok 0
    ∧ is_present demoDriver (.str "y") = .ok false
    ∧ ∃ msg, get_element_single demoDriver (.str "y") = .error (.noSuchElement msg) := by
  have h1 := element_resolution_spec demoDriver (.str "x") "css" "x" [5, 6] (by decide) (by decide)
  have h2 := element_resolution_spec demoDriver (.str "y") "css" "y" [] (by decide) (by decide)
  exact ⟨h1.1, h1.2.2 5 [6] rfl, (h2.2.1 rfl).1, (h2.2.1 rfl).2.1, (h2.2.1 rfl).2.2⟩

/-- C7: `check` reads the current checked state and performs a driver
click exactly when it differs from the target mark, and two immediately
consecutive `check(selector, True)` calls perform at most one underlying
click in total, for every initial state. -/
theorem check_idempotent (p : CheckboxPage) (mark : Bool) :
    (check mark p).clicks = p.clicks + (if is_checked p ≠ mark then 1 else 0)
    ∧ (check true (check true p)).clicks ≤ p.clicks + 1 := by
  constructor
  · by_cases h : is_checked p ≠ mark <;> simp [check, clickCheckbox, h]
  · cases hp : p.checked <;> simp [check, clickCheckbox, is_checked, hp]

/-- C8 at the failing inputs: `check` returns the session (`return self`,
line 192) but `uncheck` returns `None` (no return statement, line 198),
and `validate_text` on a matching element returns `None` (no return
statement after the assert, line 370), while `validate_checked` returns
the session — so not every chaining operation returns the session. -/
theorem uncheck_validate_text_return_none :
    (uncheck ⟨true, 0⟩).2 = PyReturn.none
    ∧ validate_text ⟨"div", "", "hello", ""⟩ "hello" = .ok PyReturn.none
    ∧ (check_with_return true ⟨false, 0⟩).2 = PyReturn.self
    ∧ validate_checked ⟨true, 0⟩ = .ok PyReturn.self := by
  decide

/-- C9: `text` is a single entry point for reading and writing,
distinguished solely by whether a value was supplied: with the value
absent it reads and returns the element's semantic value, and with any
value present — the empty string included — it performs a write (the
selection-control protocol for a select element, clear-and-type
otherwise), never a read. -/
theorem text_read_write_dispatch (el : WebElement) :
    text el none = .read (text_read el)
    ∧ (text el none).isWrite = false
    ∧ (∀ v, (text el (some v)).isWrite = true
        ∧ (text el (some v) = .wroteSelect v ∨ text el (some v) = .wroteKeys v))
    ∧ (text el (some "")).isWrite = true := by
  refine ⟨rfl, rfl, fun v => ?_, ?_⟩
  · by_cases h : pyLower el.tag_name = "select" <;>
      simp [text, TextEffect.isWrite, h]
  · by_cases h : pyLower el.tag_name = "select" <;>
      simp [text, TextEffect.isWrite, h]

/-- Python `str.strip("#")` absorbs one more leading `#`. -/
theorem stripHash_hash_append (v : String) : stripHash ("#" ++ v) = stripHash v := by
  unfold stripHash
  have hd : ("#" ++ v).data = '#' :: v.data := by
    simp [String.data_append]
  rw [hd]
  simp [List.dropWhile_cons]

/-- C10: an `id` selector has all leading and trailing `#` stripped from
its value before the driver id-query, so `("id", "#" ++ v)` and
`("id", v)` produce the same driver query and the same elements for every
driver; every other recognized kind passes its value to the driver
unaltered. -/
theorem id_selector_strips_hash {Elem : Type} (d : Driver Elem) (v : String) :
    findElements d "id" ("#" ++ v) = findElements d "id" v
    ∧ get_element_multiple d (.tuple ["id", "#" ++ v])
        = get_element_multiple d (.tuple ["id", v])
    ∧ findElements d "id" v = .ok (d.find_elements_by_id (stripHash v))
    ∧ findElements d "css" v = .ok (d.find_elements_by_css_selector v)
    ∧ findElements d "name" v = .ok (d.find_elements_by_name v)
    ∧ findElements d "class" v = .ok (d.find_elements_by_class_name v)
    ∧ findElements d "link" v = .ok (d.find_elements_by_link_text v)
    ∧ findElements d "xpath" v = .ok (d.find_elements_by_xpath v) := by
  have hid : ∀ w, findElements d "id" w = .ok (d.find_elements_by_id (stripHash w)) :=
    fun w => rfl
  have hmul : ∀ w, get_element_multiple d (.tuple ["id", w]) = findElements d "id" w :=
    fun w => rfl
  refine ⟨?_, ?_, hid v, rfl, rfl, rfl, rfl, rfl⟩
  · rw [hid, hid, stripHash_hash_append]
  · rw [hmul, hmul, hid, hid, stripHash_hash_append]
